import Mathlib

/-!
Verification development for the sec-lab-bot terminal client.

The Python source (sec-lab-bot.py) is shallowly embedded below.  HTTP
traffic and terminal input are modelled as explicit inputs: each call
site that performs a request takes the response it would receive as a
parameter, and each exception path is an explicit Except.error carrying
the name of the Python exception that would be raised.
-/

namespace SecLabBot

/-- JSON values as produced by response.json in the requests library.
Only the shapes the client can encounter are needed. -/
inductive Json where
  | null : Json
  | str : String → Json
  | num : Int → Json
  | obj : List (String × Json) → Json

/-- Python dict.get with a default value.  Calling .get on a value that
is not a dict raises AttributeError; the source applies .get to the
result of a previous .get whose default is the string value error, so
this error path is reachable. -/
def dictGet (j : Json) (key : String) (dflt : Json) : Except String Json :=
  match j with
  | .obj fields =>
    match fields.lookup key with
    | some v => .ok v
    | none => .ok dflt
  | _ => .error "AttributeError"

/-- Python equality between a value and a string literal: only a str
compares equal to a str. -/
def Json.isStr (j : Json) (s : String) : Bool :=
  match j with
  | .str t => t == s
  | _ => false

/-- An HTTP response: status code plus body.  body = none models a body
that is not valid JSON, so that resp.json() raises. -/
structure HttpResponse where
  status_code : Nat
  body : Option Json

/-- Outcome of an HTTP GET as seen by the caller: either the requests
library raised a transport exception, or a response arrived. -/
inductive FetchResult where
  | exn : FetchResult
  | resp : HttpResponse → FetchResult

def MAX_LOG_ENTRIES : Nat := 1024

def STATE_CLOSED : Nat := 0

def STATE_OPEN : Nat := 1

/-- The static label to color table PRE_DEF_COLORS of the source. -/
def PRE_DEF_COLORS : List (String × String) :=
  [("open", "brightgreen"), ("closed", "red"),
   ("fire", "orange"), ("coffee", "8f7369")]

/-- The JSON body assembled by api_request before posting: StatusName
and StatusColor, with the color defaulted from PRE_DEF_COLORS when the
caller passed none, and purple when the label is not in the table. -/
def api_data (reqtype : String) (statcolor : Option String) :
    List (String × String) :=
  let c :=
    match statcolor with
    | none =>
      match PRE_DEF_COLORS.lookup reqtype with
      | some pc => pc
      | none => "purple"
    | some c0 => c0
  [("StatusName", reqtype), ("StatusColor", c)]

/-- The ambient network world seen by one call to api_request: the
response to the status POST, the configured webhook URL, and the
response to the webhook POST (used only when a webhook URL is set). -/
structure Net where
  postResp : Except Unit Nat
  webhookUrl : Option String
  webhookResp : Except Unit Nat

/-- Python truthiness of the WEBHOOK_URL value: None and the empty
string are falsy. -/
def truthy (s : Option String) : Bool :=
  match s with
  | none => false
  | some t => !t.isEmpty

/-- api_request from the source: posts api_data reqtype statcolor to
the API, returns false on a transport exception or a non-200 code;
when a webhook URL is configured it then posts to the webhook and
returns false unless that answer is 200 or 204; otherwise true. -/
def api_request (net : Net) (reqtype : String) (statcolor : Option String) :
    Bool :=
  match net.postResp with
  | .error _ => false
  | .ok code =>
    if code ≠ 200 then false
    else if truthy net.webhookUrl then
      match net.webhookResp with
      | .error _ => false
      | .ok w => if ¬(w = 200 ∨ w = 204) then false else true
    else true

/-- A banner: fig s is FIGLET.renderText s; figArt s art is
FIGLET.renderText s followed by the contents of an art file. -/
inductive Banner where
  | fig : String → Banner
  | figArt : String → String → Banner
deriving DecidableEq

/-- Contents of the two art files read at startup (fire.txt and
coffee.txt); their contents are arbitrary. -/
structure Arts where
  fire : String
  coffee : String
deriving DecidableEq

def BANNER_OPEN : Banner := Banner.fig "Lab is OPEN :)"

def BANNER_CLOSE : Banner := Banner.fig "Lab is CLOSED :("

def BANNER_FIRE (art : String) : Banner := Banner.figArt "Lab is" art

def BANNER_COFFEE (art : String) : Banner := Banner.figArt "Out for" art

/-- Whether the text a banner renders contains t as a substring (for
figArt banners, in the rendered text or the art). -/
def bannerContains (b : Banner) (t : String) : Bool :=
  match b with
  | .fig s => decide (1 < (s.splitOn t).length)
  | .figArt s art => decide (1 < ((s ++ art).splitOn t).length)

/-- get_status from the source.  A transport exception or a non-200
code yields the sentinel.  On a 200 response the body is decoded and
navigated with .get chains whose defaults are the string error; a body
that is not JSON raises at resp.json(), and a .get applied to a
non-dict (for instance to a default that is itself the string error)
raises AttributeError, which the source does not catch. -/
def get_status (r : FetchResult) : Except String Json :=
  match r with
  | .exn => .ok (.str "error")
  | .resp resp =>
    if resp.status_code ≠ 200 then .ok (.str "error")
    else
      match resp.body with
      | none => .error "JSONDecodeError"
      | some j =>
        match dictGet j "data" (.str "error") with
        | .error e => .error e
        | .ok d => dictGet d "status" (.str "error")

/-- get_state from the source: 1 when the fetched status equals the
string open, 0 otherwise; exceptions from get_status propagate. -/
def get_state (r : FetchResult) : Except String Nat :=
  match get_status r with
  | .error e => .error e
  | .ok status => if status.isStr "open" then .ok 1 else .ok 0

/-- truncate_log from the source, success path.  The source opens the
log with Python mode w+, which truncates the file to zero length
before readlines runs, so readlines always yields the empty list and
the line-count test compares 0 against the ceiling.  The result is the
file contents after the call paired with the returned boolean; the
exception path (return False) is modelled by the truncate_ok field of
Env at the call site in set_status. -/
def truncate_log (contents : List String) : List String × Bool :=
  let afterOpen : List String := []
  if afterOpen.length > MAX_LOG_ENTRIES then ([], true)
  else (afterOpen, true)

/-- The world seen by one call to set_status: the GET response used by
get_state, whether truncate_log returned True, the clock value at the
debounce test, the network world for api_request, and the two lines
read in the freeform branch (none models a byte string that fails to
decode as UTF-8). -/
structure Env where
  fetch : FetchResult
  truncate_ok : Bool
  now : ℚ
  net : Net
  freeform_label : Option String
  freeform_color : Option String

/-- Arguments of one api_request call made by set_status; the body
actually posted is api_data reqtype statcolor. -/
structure ApiCall where
  reqtype : String
  statcolor : Option String
deriving DecidableEq

/-- Observable outcome of one set_status call: the api_request call it
made (if any), the banner it returned to main (none is the Python None
returned on early exits and on failure, which main treats as falsy and
does not redraw), and whether curses.flash and curses.beep ran. -/
structure ActionResult where
  submitted : Option ApiCall
  banner : Option Banner
  flashed : Bool
deriving DecidableEq

/-- Python ord on a character. -/
def ord (c : Char) : Int := Int.ofNat c.toNat

/-- set_status from the source.  It fetches the state, runs the
truncation check (aborting when it returned False), applies the
debounce test against the gotchar argument, then dispatches on the key
and state.  Success in a branch returns the banner immediately; failure
falls through to the flash and beep block and returns None.  The final
else is unreachable because get_state only returns 0 or 1; in the
source it would hit an f-string over the unbound name reqtype. -/
def set_status (arts : Arts) (env : Env) (ch : Int) (success : Bool)
    (gotchar : ℚ) : Except String ActionResult :=
  match get_state env.fetch with
  | .error e => .error e
  | .ok state =>
    if env.truncate_ok = false then .ok ⟨none, none, false⟩
    else if env.now - gotchar < 1 / 10 then .ok ⟨none, none, false⟩
    else if ch = ord 'f' ∧ state = STATE_OPEN then
      if api_request env.net "fire" none then
        .ok ⟨some ⟨"fire", none⟩, some (BANNER_FIRE arts.fire), false⟩
      else .ok ⟨some ⟨"fire", none⟩, none, true⟩
    else if ch = ord 'c' ∧ state = STATE_OPEN then
      if api_request env.net "coffee" none then
        .ok ⟨some ⟨"coffee", none⟩, some (BANNER_COFFEE arts.coffee), false⟩
      else .ok ⟨some ⟨"coffee", none⟩, none, true⟩
    else if ch = ord '|' ∧ state = STATE_OPEN then
      match env.freeform_color, env.freeform_label with
      | some statcolor, some reqtype =>
        if reqtype.isEmpty ∨ statcolor.isEmpty then .ok ⟨none, none, false⟩
        else if api_request env.net reqtype (some statcolor) then
          .ok ⟨some ⟨reqtype, some statcolor⟩,
            some (Banner.fig (("Lab is " ++ reqtype.toUpper).trim)), false⟩
        else .ok ⟨some ⟨reqtype, some statcolor⟩, none, true⟩
      | _, _ => .ok ⟨none, none, false⟩
    else if state = STATE_CLOSED then
      if api_request env.net "open" none then
        .ok ⟨some ⟨"open", none⟩, some BANNER_OPEN, false⟩
      else .ok ⟨some ⟨"open", none⟩, none, true⟩
    else if state = STATE_OPEN then
      if api_request env.net "closed" none then
        .ok ⟨some ⟨"closed", none⟩, some BANNER_CLOSE, false⟩
      else .ok ⟨some ⟨"closed", none⟩, none, true⟩
    else .error "NameError"

/-- get_remote_status from the source: maps the fetched status to a
banner; a status outside the four known labels is rendered on the fly
with renderText over an f-string that upcases the label, and upcasing
a non-string raises. -/
def get_remote_status (arts : Arts) (r : FetchResult) :
    Except String Banner :=
  match get_status r with
  | .error e => .error e
  | .ok status =>
    if status.isStr "open" then .ok BANNER_OPEN
    else if status.isStr "closed" then .ok BANNER_CLOSE
    else if status.isStr "coffee" then .ok (BANNER_COFFEE arts.coffee)
    else if status.isStr "fire" then .ok (BANNER_FIRE arts.fire)
    else
      match status with
      | .str s => .ok (Banner.fig (("Lab is " ++ s.toUpper).trim))
      | _ => .error "AttributeError"

/-- The loop locals of main.  main sets success to True and gotchar to
0 before the loop and never reassigns either: the assignments at the
end of set_status rebind locals of set_status and are lost when it
returns, so every iteration passes the same values. -/
structure LoopState where
  success : Bool
  gotchar : ℚ

/-- One iteration input of the main loop: either the 120 second getch
timeout elapsed (carrying the GET response the refresh will see) or a
key arrived (carrying the world that call to set_status will see). -/
inductive Event where
  | timeout : FetchResult → Event
  | key : Int → Env → Event

/-- One iteration of the main loop: on timeout, get_remote_status is
drawn; on a key, set_status runs and its banner is drawn when truthy.
The loop state is returned unchanged, as in the source. -/
def main_step (arts : Arts) (st : LoopState) (e : Event) :
    Except String (LoopState × Option Banner × Option ApiCall) :=
  match e with
  | .timeout f =>
    match get_remote_status arts f with
    | .error e2 => .error e2
    | .ok b => .ok (st, some b, none)
  | .key ch env =>
    match set_status arts env ch st.success st.gotchar with
    | .error e2 => .error e2
    | .ok r => .ok (st, r.banner, r.submitted)

/-- The main loop over a list of events, collecting for each iteration
the banner drawn (if any) and the api_request call made (if any). -/
def main_run (arts : Arts) :
    LoopState → List Event → Except String (List (Option Banner × Option ApiCall))
  | _, [] => .ok []
  | st, e :: es =>
    match main_step arts st e with
    | .error e2 => .error e2
    | .ok (st2, b, c) =>
      match main_run arts st2 es with
      | .error e2 => .error e2
      | .ok rest => .ok ((b, c) :: rest)

/-- The loop state main builds before entering the loop. -/
def main_init : LoopState := ⟨true, 0⟩

/- Concrete sample worlds used by witnesses. -/

/-- Arbitrary art file contents. -/
def artsW : Arts := ⟨"fireArt", "coffeeArt"⟩

/-- A network world in which the POST answers 200 and no webhook is
configured. -/
def netOK : Net := ⟨Except.ok 200, none, Except.ok 200⟩

/-- A world at clock value t in which the status GET raises a
transport exception and everything else succeeds. -/
def envAt (t : ℚ) : Env := ⟨FetchResult.exn, true, t, netOK, none, none⟩

/-- A 200 GET response whose body carries the status closed. -/
def fetchClosed : FetchResult :=
  FetchResult.resp ⟨200, some (Json.obj
    [("data", Json.obj [("status", Json.str "closed")])])⟩

/-- A 200 GET response whose body carries the status open. -/
def fetchOpen : FetchResult :=
  FetchResult.resp ⟨200, some (Json.obj
    [("data", Json.obj [("status", Json.str "open")])])⟩

/-- A world in which the remote status is closed. -/
def envClosed : Env := ⟨fetchClosed, true, 1000, netOK, none, none⟩

/-- A world in which the remote status is open and the freeform label
fails to decode. -/
def envAbort : Env := ⟨fetchOpen, true, 1000, netOK, none, some "red"⟩

/-- A world in which the status GET raises and the POST answers 500,
so the submission fails. -/
def envFail : Env :=
  ⟨FetchResult.exn, true, 1000, ⟨Except.ok 500, none, Except.ok 200⟩,
    none, none⟩

/-- C1: the truncation check is claimed to leave a file at or below the
1024 line ceiling untouched.  It does not: opening with mode w+
truncates the file before anything is read, so a one-line log file is
replaced by an empty file and the function still returns True. -/
theorem C1_truncate_empties_small_file :
    truncate_log ["single log line"] = ([], true) ∧
      List.length ["single log line"] ≤ MAX_LOG_ENTRIES :=
  ⟨rfl, by decide⟩

/-- C3: get_status is claimed never to raise and to return the
sentinel on a 200 response of the wrong shape.  On a 200 response
whose JSON body is the empty object, the .get chain applies .get to
the string default and raises AttributeError; transport exceptions and
non-200 codes do map to the sentinel. -/
theorem C3_malformed_body_raises :
    get_status (FetchResult.resp ⟨200, some (Json.obj [])⟩) =
        Except.error "AttributeError" ∧
      get_status FetchResult.exn = Except.ok (Json.str "error") ∧
        get_status (FetchResult.resp ⟨500, some (Json.obj [])⟩) =
          Except.ok (Json.str "error") :=
  ⟨rfl, rfl, rfl⟩

/-- C2: two keypresses 50 milliseconds apart are claimed to produce
only one submission.  Because main never updates gotchar, the debounce
test compares against 0 and never fires: both iterations submit an
open request and both redraw the banner. -/
theorem C2_debounce_never_fires :
    ((20001 / 20 : ℚ) - 1000 < 1 / 10) ∧
      main_run artsW main_init
          [Event.key 120 (envAt 1000), Event.key 120 (envAt (20001 / 20))] =
        Except.ok [(some BANNER_OPEN, some ⟨"open", none⟩),
          (some BANNER_OPEN, some ⟨"open", none⟩)] :=
  ⟨by norm_num, by with_unfolding_all rfl⟩

/-- C4: the body posted by api_request defaults the color from
PRE_DEF_COLORS for the four known labels, uses purple for a label
outside the table, and passes an explicitly supplied color through
unchanged. -/
theorem C4_color_defaults (label c : String)
    (h : PRE_DEF_COLORS.lookup label = none) :
    api_data "open" none = [("StatusName", "open"), ("StatusColor", "brightgreen")] ∧
      api_data "closed" none = [("StatusName", "closed"), ("StatusColor", "red")] ∧
        api_data "fire" none = [("StatusName", "fire"), ("StatusColor", "orange")] ∧
          api_data "coffee" none = [("StatusName", "coffee"), ("StatusColor", "8f7369")] ∧
            api_data label none = [("StatusName", label), ("StatusColor", "purple")] ∧
              api_data label (some c) = [("StatusName", label), ("StatusColor", c)] := by
  refine ⟨rfl, rfl, rfl, rfl, ?_, rfl⟩
  simp [api_data, h]

/-- Witness for C4 at the unmapped label studying and explicit color
cyan. -/
theorem C4_color_defaults_witness :
    api_data "open" none = [("StatusName", "open"), ("StatusColor", "brightgreen")] ∧
      api_data "closed" none = [("StatusName", "closed"), ("StatusColor", "red")] ∧
        api_data "fire" none = [("StatusName", "fire"), ("StatusColor", "orange")] ∧
          api_data "coffee" none = [("StatusName", "coffee"), ("StatusColor", "8f7369")] ∧
            api_data "studying" none = [("StatusName", "studying"), ("StatusColor", "purple")] ∧
              api_data "studying" (some "cyan") = [("StatusName", "studying"), ("StatusColor", "cyan")] :=
  C4_color_defaults "studying" "cyan" rfl

/-- C5: api_request returns true exactly when the status POST answered
200 and, whenever a webhook URL is configured (non-empty), the webhook
POST answered 200 or 204; every transport exception and every other
code on either request yields false. -/
theorem C5_api_request_success (net : Net) (reqtype : String)
    (statcolor : Option String) :
    api_request net reqtype statcolor = true ↔
      net.postResp = Except.ok 200 ∧
        (truthy net.webhookUrl = true →
          net.webhookResp = Except.ok 200 ∨ net.webhookResp = Except.ok 204) := by
  obtain ⟨post, whUrl, whResp⟩ := net
  cases post with
  | error e => simp [api_request]
  | ok code =>
    by_cases hc : code = 200
    · subst hc
      cases hw : truthy whUrl with
      | false => simp [api_request, hw]
      | true =>
        cases whResp with
        | error e => simp [api_request, hw]
        | ok w =>
          by_cases h2 : w = 200 ∨ w = 204 <;>
            simp [api_request, hw, h2]
    · simp [api_request, hc]

/-- C6 counterexample: with the status GET raising a transport
exception, the passive refresh renders the sentinel as a banner whose
text is Lab is ERROR, so error text does reach the banner. -/
theorem C6_refresh_shows_error_banner :
    get_remote_status artsW FetchResult.exn =
        Except.ok (Banner.fig "Lab is ERROR") ∧
      bannerContains (Banner.fig "Lab is ERROR") "ERROR" = true :=
  ⟨by with_unfolding_all rfl, by with_unfolding_all rfl⟩

/-- C6 amended: whenever set_status signals failure with a flash and
beep, it returns no banner (so main does not redraw and the banner
stays unchanged) and an api_request call was made; but error text can
reach the banner through the passive refresh, which renders the error
sentinel as the banner Lab is ERROR. -/
theorem C6_failure_no_redraw (arts : Arts) (env : Env) (ch : Int)
    (success : Bool) (gotchar : ℚ) (r : ActionResult)
    (h : set_status arts env ch success gotchar = Except.ok r)
    (hf : r.flashed = true) :
    r.banner = none ∧ r.submitted.isSome = true := by
  unfold set_status at h
  repeat' split at h
  all_goals first
    | exact Except.noConfusion h
    | (injection h with h2; subst h2; simp_all)

/-- Witness for C6: the world envFail makes the open submission fail,
set_status flashes, and the result carries no banner. -/
theorem C6_failure_no_redraw_witness :
    set_status artsW envFail 120 true 0 =
        Except.ok ⟨some ⟨"open", none⟩, none, true⟩ ∧
      ((⟨some ⟨"open", none⟩, none, true⟩ : ActionResult).banner = none ∧
        (⟨some ⟨"open", none⟩, none, true⟩ : ActionResult).submitted.isSome = true) :=
  ⟨by with_unfolding_all rfl,
    C6_failure_no_redraw artsW envFail 120 true 0 _
      (by with_unfolding_all rfl) rfl⟩

/-- In the closed state, once the truncation check passed and the
debounce window is over, set_status always submits open, whatever the
key: every key branch requires the open state, so all keys fall
through to the closed branch. -/
theorem set_status_closed_submits_open (arts : Arts) (env : Env)
    (ch : Int) (success : Bool) (gotchar : ℚ)
    (hst : get_state env.fetch = Except.ok 0)
    (htr : env.truncate_ok = true)
    (hdb : ¬ env.now - gotchar < 1 / 10) :
    set_status arts env ch success gotchar =
      (if api_request env.net "open" none then
        Except.ok ⟨some ⟨"open", none⟩, some BANNER_OPEN, false⟩
      else Except.ok ⟨some ⟨"open", none⟩, none, true⟩) := by
  have hdb2 : ¬ env.now - gotchar < (10 : ℚ)⁻¹ := by rwa [← one_div]
  unfold set_status
  rw [hst]
  simp [htr, hdb2, STATE_OPEN, STATE_CLOSED]

/-- Reading get_state through a known get_status result. -/
theorem get_state_of_status (fetch : FetchResult) (s : Json)
    (h : get_status fetch = Except.ok s) :
    get_state fetch = if s.isStr "open" then Except.ok 1 else Except.ok 0 := by
  unfold get_state
  rw [h]

/-- C7: with the remote status closed, the truncation check passed and
the debounce window over, any key other than f, c and the pipe key
submits the label open, and on success the open banner is returned. -/
theorem C7_closed_other_key_submits_open (arts : Arts) (env : Env)
    (ch : Int) (success : Bool) (gotchar : ℚ)
    (hst : get_status env.fetch = Except.ok (Json.str "closed"))
    (htr : env.truncate_ok = true)
    (hdb : ¬ env.now - gotchar < 1 / 10)
    (hkf : ch ≠ ord 'f') (hkc : ch ≠ ord 'c') (hkp : ch ≠ ord '|') :
    ∃ r, set_status arts env ch success gotchar = Except.ok r ∧
      r.submitted = some ⟨"open", none⟩ ∧
      (api_request env.net "open" none = true → r.banner = some BANNER_OPEN) := by
  have hstate : get_state env.fetch = Except.ok 0 := by
    rw [get_state_of_status env.fetch _ hst]
    with_unfolding_all rfl
  rw [set_status_closed_submits_open arts env ch success gotchar hstate htr hdb]
  cases hapi : api_request env.net "open" none with
  | false =>
    refine ⟨⟨some ⟨"open", none⟩, none, true⟩, ?_, rfl, ?_⟩
    · simp
    · intro habs; exact Bool.noConfusion habs
  | true =>
    refine ⟨⟨some ⟨"open", none⟩, some BANNER_OPEN, false⟩, ?_, rfl, fun _ => rfl⟩
    simp

/-- Witness for C7: remote status closed, key x, POST answers 200. -/
theorem C7_witness :
    ∃ r, set_status artsW envClosed 120 true 0 = Except.ok r ∧
      r.submitted = some ⟨"open", none⟩ ∧
      (api_request envClosed.net "open" none = true → r.banner = some BANNER_OPEN) :=
  C7_closed_other_key_submits_open artsW envClosed 120 true 0
    (by with_unfolding_all rfl) rfl (by with_unfolding_all decide)
    (by decide) (by decide) (by decide)

/-- C9: with the remote status closed, every key submits the label
open, including f, c and the pipe key, because those branches all
require the open state and fall through to the closed branch. -/
theorem C9_closed_every_key_submits_open (arts : Arts) (env : Env)
    (ch : Int) (success : Bool) (gotchar : ℚ)
    (hst : get_status env.fetch = Except.ok (Json.str "closed"))
    (htr : env.truncate_ok = true)
    (hdb : ¬ env.now - gotchar < 1 / 10) :
    ∃ r, set_status arts env ch success gotchar = Except.ok r ∧
      r.submitted = some ⟨"open", none⟩ := by
  have hstate : get_state env.fetch = Except.ok 0 := by
    rw [get_state_of_status env.fetch _ hst]
    with_unfolding_all rfl
  rw [set_status_closed_submits_open arts env ch success gotchar hstate htr hdb]
  cases hapi : api_request env.net "open" none with
  | false =>
    exact ⟨⟨some ⟨"open", none⟩, none, true⟩, by simp, rfl⟩
  | true =>
    exact ⟨⟨some ⟨"open", none⟩, some BANNER_OPEN, false⟩, by simp, rfl⟩

/-- Witness for C9 at the key f, which in the open state would mean
fire but in the closed state submits open. -/
theorem C9_witness :
    ∃ r, set_status artsW envClosed (ord 'f') true 0 = Except.ok r ∧
      r.submitted = some ⟨"open", none⟩ :=
  C9_closed_every_key_submits_open artsW envClosed (ord 'f') true 0
    (by with_unfolding_all rfl) rfl (by with_unfolding_all decide)

/-- C10: every fetched status other than the string open maps to the
closed state, the unreachable API yields the sentinel, and a keypress
while the API is unreachable therefore submits the label open. -/
theorem C10_error_status_maps_closed (arts : Arts) (env : Env)
    (ch : Int) (success : Bool) (gotchar : ℚ) (fetch : FetchResult)
    (s : Json)
    (hother : get_status fetch = Except.ok s)
    (hne : s ≠ Json.str "open")
    (hunreach : env.fetch = FetchResult.exn)
    (htr : env.truncate_ok = true)
    (hdb : ¬ env.now - gotchar < 1 / 10) :
    get_state fetch = Except.ok 0 ∧
      get_status FetchResult.exn = Except.ok (Json.str "error") ∧
      ∃ r, set_status arts env ch success gotchar = Except.ok r ∧
        r.submitted = some ⟨"open", none⟩ := by
  refine ⟨?_, rfl, ?_⟩
  · rw [get_state_of_status fetch s hother]
    have hfalse : Json.isStr s "open" = false := by
      cases s with
      | null => rfl
      | num n => rfl
      | obj l => rfl
      | str t =>
        simp only [Json.isStr, beq_eq_false_iff_ne, ne_eq]
        intro hteq
        exact hne (by rw [hteq])
    simp [hfalse]
  · have hstate : get_state env.fetch = Except.ok 0 := by
      rw [hunreach]
      with_unfolding_all rfl
    rw [set_status_closed_submits_open arts env ch success gotchar hstate htr hdb]
    cases hapi : api_request env.net "open" none with
    | false =>
      exact ⟨⟨some ⟨"open", none⟩, none, true⟩, by simp, rfl⟩
    | true =>
      exact ⟨⟨some ⟨"open", none⟩, some BANNER_OPEN, false⟩, by simp, rfl⟩

/-- Witness for C10: a 404 response maps to the closed state, and a
keypress while the GET raises submits open. -/
theorem C10_witness :
    get_state (FetchResult.resp ⟨404, none⟩) = Except.ok 0 ∧
      get_status FetchResult.exn = Except.ok (Json.str "error") ∧
      ∃ r, set_status artsW (envAt 1000) 120 true 0 = Except.ok r ∧
        r.submitted = some ⟨"open", none⟩ :=
  C10_error_status_maps_closed artsW (envAt 1000) 120 true 0
    (FetchResult.resp ⟨404, none⟩) (Json.str "error") rfl
    (by intro h; injection h with h2; exact absurd h2 (by decide))
    rfl rfl (by with_unfolding_all decide)

/-- C8: in the open state, the freeform branch submits nothing when
either entered field fails to decode or is empty: it returns with no
request, no banner and no flash. -/
theorem C8_freeform_abort (arts : Arts) (env : Env) (success : Bool)
    (gotchar : ℚ)
    (hst : get_status env.fetch = Except.ok (Json.str "open"))
    (htr : env.truncate_ok = true)
    (hdb : ¬ env.now - gotchar < 1 / 10)
    (habort : env.freeform_label = none ∨ env.freeform_color = none ∨
      env.freeform_label = some "" ∨ env.freeform_color = some "") :
    set_status arts env (ord '|') success gotchar =
      Except.ok ⟨none, none, false⟩ := by
  have hstate : get_state env.fetch = Except.ok 1 := by
    rw [get_state_of_status env.fetch _ hst]
    with_unfolding_all rfl
  have hdb2 : ¬ env.now - gotchar < (10 : ℚ)⁻¹ := by rwa [← one_div]
  have hnf : ¬(ord '|' = ord 'f') := by decide
  have hnc : ¬(ord '|' = ord 'c') := by decide
  unfold set_status
  rw [hstate]
  rcases habort with h | h | h | h
  · cases hcol : env.freeform_color with
    | none => simp [htr, hdb2, hnf, hnc, h, hcol, STATE_OPEN]
    | some c0 => simp [htr, hdb2, hnf, hnc, h, hcol, STATE_OPEN]
  · cases hlab : env.freeform_label with
    | none => simp [htr, hdb2, hnf, hnc, h, hlab, STATE_OPEN]
    | some l0 => simp [htr, hdb2, hnf, hnc, h, hlab, STATE_OPEN]
  · cases hcol : env.freeform_color with
    | none => simp [htr, hdb2, hnf, hnc, h, hcol, STATE_OPEN]
    | some c0 => simp [htr, hdb2, hnf, hnc, h, hcol, STATE_OPEN, String.isEmpty]
  · cases hlab : env.freeform_label with
    | none => simp [htr, hdb2, hnf, hnc, h, hlab, STATE_OPEN]
    | some l0 => simp [htr, hdb2, hnf, hnc, h, hlab, STATE_OPEN, String.isEmpty]

/-- Witness for C8: remote status open, pipe key, the label fails to
decode while the color reads red; nothing is submitted. -/
theorem C8_witness :
    (envAbort.freeform_label = none ∨ envAbort.freeform_color = none ∨
      envAbort.freeform_label = some "" ∨ envAbort.freeform_color = some "") ∧
      set_status artsW envAbort (ord '|') true 0 =
        Except.ok ⟨none, none, false⟩ :=
  ⟨Or.inl rfl,
    C8_freeform_abort artsW envAbort true 0 (by with_unfolding_all rfl) rfl
      (by with_unfolding_all decide) (Or.inl rfl)⟩

end SecLabBot
